import Mathlib

/-
Verification of the deterministic mortgage calculation engine in
`mortgage_agent/tools.py` (UAE mortgage advisor).

Modelling conventions:
- Python floats are modelled as exact rationals (ℚ).  The engine's arithmetic
  is plain field arithmetic plus `round(x, k)`, which Python performs with
  round-half-to-even; `pyRoundInt` below implements that tie-break exactly.
- Python `int` is modelled as ℤ.  `math.pow` on a positive base with an
  integer exponent is `zpow`.
- The dictionaries returned by the calculation functions are modelled as
  structures named `...Dict`, one field per key.  Keys that are present in
  only one branch of a function (the unaffordable branch of
  `calculate_affordability` omits several keys) are `Option`-valued, `none`
  meaning the key is absent; reading an absent key (Python `KeyError`) makes
  a formatting wrapper return `none`.
- Python string formatting (`{x:,.0f}` etc.) is reproduced by `fmtComma`,
  `fmt0`, `fmt1`; the rendering of default-float reprs is approximate
  (e.g. Python prints 5.0, we print 5.0 via one-decimal formatting) and the
  strings use a typographic quote where Python has an ASCII one.  No theorem
  depends on the content of a formatted string.
- Division by zero is total in ℚ (x / 0 = 0), as usual for this style of
  embedding; every theorem below only evaluates the embedded functions at
  points where the Python code does not raise ZeroDivisionError.
-/

-- ===========================================================================
-- Rounding and string formatting helpers (Python built-ins used by tools.py)
-- ===========================================================================

/-- Python `str.lower` (ASCII case folding, which is all the repository uses). -/
def pyLower (s : String) : String := ⟨s.data.map Char.toLower⟩

/-- Python `round(y)` to an integer: round half to even (banker's rounding). -/
def pyRoundInt (y : ℚ) : ℤ :=
  if y - (⌊y⌋ : ℚ) < 1/2 then ⌊y⌋
  else if 1/2 < y - (⌊y⌋ : ℚ) then ⌊y⌋ + 1
  else if ⌊y⌋ % 2 = 0 then ⌊y⌋ else ⌊y⌋ + 1

/-- Python `round(x, 2)`. -/
def round2 (x : ℚ) : ℚ := (pyRoundInt (x * 100) : ℚ) / 100

/-- Python `round(x, 1)`. -/
def round1 (x : ℚ) : ℚ := (pyRoundInt (x * 10) : ℚ) / 10

/-- Python `round(x, 0)` (still a float in Python). -/
def round0 (x : ℚ) : ℚ := (pyRoundInt x : ℚ)

/-- Insert a thousands separator every three digits; the input is the digit
list least-significant first, and the output is in the same order. -/
def chunkRev : List Char → List Char
  | a :: b :: c :: d :: rest => a :: b :: c :: ',' :: chunkRev (d :: rest)
  | l => l

/-- Python `f"{n:,}"` for an integer `n`. -/
def fmtComma (n : ℤ) : String :=
  (if n < 0 then "-" else "") ++ ⟨(chunkRev (Nat.toDigits 10 n.natAbs).reverse).reverse⟩

/-- Python `f"{x:,.0f}"`. -/
def fmt0 (x : ℚ) : String := fmtComma (pyRoundInt x)

/-- Python `f"{x:.1f}"`, also used to render one-decimal float reprs. -/
def fmt1 (x : ℚ) : String :=
  let m := pyRoundInt (x * 10)
  (if m < 0 then "-" else "") ++ toString (m.natAbs / 10) ++ "." ++ toString (m.natAbs % 10)

-- ===========================================================================
-- UAE mortgage constants (module-level constants in tools.py)
-- ===========================================================================

def MAX_LTV_EXPAT : ℚ := 4/5            -- 0.80
def MAX_LTV_UAE_NATIONAL : ℚ := 17/20   -- 0.85
def TRANSFER_FEE_PERCENT : ℚ := 4       -- 4.0
def AGENCY_FEE_PERCENT : ℚ := 2         -- 2.0
def MISC_FEES_PERCENT : ℚ := 1          -- 1.0
def TOTAL_UPFRONT_COSTS_PERCENT : ℚ := 7
def DEFAULT_INTEREST_RATE : ℚ := 9/2    -- 4.5
def MAX_TENURE_YEARS : ℤ := 25
def MAINTENANCE_FEE_PERCENT : ℚ := 3/2  -- 1.5

-- ===========================================================================
-- calculate_emi
-- ===========================================================================

/-- The dictionary returned by `calculate_emi`. -/
structure EmiDict where
  monthly_emi : ℚ
  total_payment : ℚ
  total_interest : ℚ
  loan_amount : ℚ
  down_payment : ℚ
  tenure_months : ℤ
  tenure_years : ℤ
  interest_rate : ℚ
  property_price : ℚ

/-- `calculate_emi` from tools.py.  Python's default arguments
(`down_payment_percent=20.0`, `annual_interest_rate=4.5`, `tenure_years=25`)
are passed explicitly at every call site below. -/
def calculate_emi (property_price down_payment_percent annual_interest_rate : ℚ)
    (tenure_years : ℤ) : EmiDict :=
  let down_payment_percent := max down_payment_percent 20
  let tenure_years := min tenure_years MAX_TENURE_YEARS
  let down_payment := property_price * (down_payment_percent / 100)
  let loan_amount := property_price - down_payment
  let monthly_rate := annual_interest_rate / 100 / 12
  let tenure_months := tenure_years * 12
  let monthly_emi :=
    if 0 < monthly_rate then
      let emi_numerator := loan_amount * monthly_rate * (1 + monthly_rate) ^ tenure_months
      let emi_denominator := (1 + monthly_rate) ^ tenure_months - 1
      emi_numerator / emi_denominator
    else loan_amount / (tenure_months : ℚ)
  let total_payment := monthly_emi * (tenure_months : ℚ)
  let total_interest := total_payment - loan_amount
  { monthly_emi := round2 monthly_emi
    total_payment := round2 total_payment
    total_interest := round2 total_interest
    loan_amount := round2 loan_amount
    down_payment := round2 down_payment
    tenure_months := tenure_months
    tenure_years := tenure_years
    interest_rate := annual_interest_rate
    property_price := property_price }

-- ===========================================================================
-- calculate_upfront_costs
-- ===========================================================================

/-- The dictionary returned by `calculate_upfront_costs`. -/
structure UpfrontDict where
  property_price : ℚ
  down_payment : ℚ
  down_payment_percent : ℚ
  transfer_fee : ℚ
  transfer_fee_label : String
  agency_fee : ℚ
  agency_fee_label : String
  misc_fees : ℚ
  misc_fees_label : String
  total_fees : ℚ
  total_fees_percent : ℚ
  total_cash_needed : ℚ
  warning : String

/-- `calculate_upfront_costs` from tools.py. -/
def calculate_upfront_costs (property_price down_payment_percent : ℚ) : UpfrontDict :=
  let down_payment_percent := max down_payment_percent 20
  let down_payment := property_price * (down_payment_percent / 100)
  let transfer_fee := property_price * (TRANSFER_FEE_PERCENT / 100)
  let agency_fee := property_price * (AGENCY_FEE_PERCENT / 100)
  let misc_fees := property_price * (MISC_FEES_PERCENT / 100)
  let total_fees := transfer_fee + agency_fee + misc_fees
  let total_cash_needed := down_payment + total_fees
  { property_price := round2 property_price
    down_payment := round2 down_payment
    down_payment_percent := down_payment_percent
    transfer_fee := round2 transfer_fee
    transfer_fee_label := fmt1 TRANSFER_FEE_PERCENT ++ "% (Dubai Land Dept)"
    agency_fee := round2 agency_fee
    agency_fee_label := fmt1 AGENCY_FEE_PERCENT ++ "% (Agent Commission)"
    misc_fees := round2 misc_fees
    misc_fees_label := fmt1 MISC_FEES_PERCENT ++ "% (Valuation, Registration)"
    total_fees := round2 total_fees
    total_fees_percent := TOTAL_UPFRONT_COSTS_PERCENT
    total_cash_needed := round2 total_cash_needed
    warning := "⚠️ You need " ++ fmt0 (round0 total_cash_needed) ++
      " AED in CASH to buy (not just " ++ fmt0 (round0 down_payment) ++
      " AED down payment!)" }

-- ===========================================================================
-- calculate_affordability
-- ===========================================================================

/-- The dictionary returned by `calculate_affordability`.  The unaffordable
early-return branch omits the keys `recommended_emi`,
`comfortable_property_price`, `monthly_income`, `existing_debts` and `note`,
and the affordable branch omits `warning`; those keys are `Option`-valued. -/
structure AffordabilityDict where
  is_affordable : Bool
  max_emi : ℚ
  recommended_emi : Option ℚ
  max_loan_amount : ℚ
  max_property_price : ℚ
  comfortable_property_price : Option ℚ
  dti_ratio : ℚ
  monthly_income : Option ℚ
  existing_debts : Option ℚ
  warning : Option String
  note : Option String

/-- `calculate_affordability` from tools.py.  The local
`is_comfortable = monthly_expenses < monthly_income * 0.4` is computed by the
source but never returned or used, and is omitted here. -/
def calculate_affordability (monthly_income monthly_expenses existing_debts
    max_dti_ratio : ℚ) : AffordabilityDict :=
  let available_for_debt := monthly_income * (max_dti_ratio / 100)
  let max_emi := available_for_debt - existing_debts
  if max_emi ≤ 0 then
    { is_affordable := false
      max_emi := 0
      recommended_emi := none
      max_loan_amount := 0
      max_property_price := 0
      comfortable_property_price := none
      dti_ratio := 100
      monthly_income := none
      existing_debts := none
      warning := some "⚠️ Your existing debts are too high. You need to reduce debts before considering a mortgage."
      note := none }
  else
    let tenure_years : ℤ := 25
    let annual_rate := DEFAULT_INTEREST_RATE
    let monthly_rate := annual_rate / 100 / 12
    let tenure_months := tenure_years * 12
    let multiplier := ((1 + monthly_rate) ^ tenure_months - 1) /
        (monthly_rate * (1 + monthly_rate) ^ tenure_months)
    let max_loan := max_emi * multiplier
    let max_property_price := max_loan / MAX_LTV_EXPAT
    let dti := ((max_emi + existing_debts) / monthly_income) * 100
    let comfortable_emi := max_emi * (7/10)
    { is_affordable := true
      max_emi := round2 max_emi
      recommended_emi := some (round2 comfortable_emi)
      max_loan_amount := round2 max_loan
      max_property_price := round2 max_property_price
      comfortable_property_price := some (round2 (max_property_price * (7/10)))
      dti_ratio := round1 dti
      monthly_income := some monthly_income
      existing_debts := some existing_debts
      warning := none
      note := some "💡 Comfortable budget is 70% of maximum to leave room for emergencies." }

/-- The reverse-amortization multiplier `((1+r)^n - 1) / (r (1+r)^n)` that
`calculate_affordability` computes for the fixed default rate and tenure
(25 years at 4.5%). -/
def afford_mult : ℚ :=
  ((1 + DEFAULT_INTEREST_RATE / 100 / 12) ^ ((25 : ℤ) * 12) - 1) /
    (DEFAULT_INTEREST_RATE / 100 / 12 * (1 + DEFAULT_INTEREST_RATE / 100 / 12) ^ ((25 : ℤ) * 12))

-- ===========================================================================
-- analyze_buy_vs_rent
-- ===========================================================================

/-- The rent-projection loop of `analyze_buy_vs_rent`: state is
`(total_rent, current_rent)`; each year adds `current_rent * 12` and then
escalates the rent by `annual_rent_increase_percent`. -/
def rent_loop (annual_rent_increase_percent : ℚ) : ℕ → ℚ × ℚ → ℚ × ℚ
  | 0, s => s
  | k + 1, s =>
      rent_loop annual_rent_increase_percent k
        (s.1 + s.2 * 12, s.2 * (1 + annual_rent_increase_percent / 100))

/-- The month-by-month amortization scan of `analyze_buy_vs_rent`: state is
`(principal_paid, remaining_balance)`. -/
def principal_loop (monthly_emi monthly_rate : ℚ) : ℕ → ℚ × ℚ → ℚ × ℚ
  | 0, s => s
  | k + 1, s =>
      let interest_portion := s.2 * monthly_rate
      let principal_portion := monthly_emi - interest_portion
      principal_loop monthly_emi monthly_rate k
        (s.1 + principal_portion, s.2 - principal_portion)

/-- The local variables of `analyze_buy_vs_rent`, in source order.
`net_buy_position`, `net_rent_position` and `avg_monthly_rent` are computed
by the source but never used afterwards; they are kept for fidelity. -/
structure BvrInternals where
  months : ℤ
  emi_result : EmiDict
  monthly_emi : ℚ
  upfront : UpfrontDict
  total_upfront : ℚ
  monthly_maintenance : ℚ
  monthly_buy_cost : ℚ
  total_rent : ℚ
  avg_monthly_rent : ℚ
  loan_amount : ℚ
  monthly_rate : ℚ
  principal_paid : ℚ
  future_value : ℚ
  appreciation_gain : ℚ
  down_payment : ℚ
  equity_buildup : ℚ
  total_buy_cost : ℚ
  total_rent_cost : ℚ
  net_buy_position : ℚ
  net_rent_position : ℚ
  savings_if_buying : ℚ
  break_even_years : ℚ
  recommendation : String
  reasoning : String

/-- Body of `analyze_buy_vs_rent` from tools.py (every local of the Python
function, computed in source order). -/
def bvr_internals (property_price current_monthly_rent : ℚ)
    (years_planning_to_stay : ℤ)
    (down_payment_percent annual_interest_rate expected_appreciation_percent
      annual_rent_increase_percent : ℚ) : BvrInternals :=
  let down_payment_percent := max down_payment_percent 20
  let months := years_planning_to_stay * 12
  let emi_result := calculate_emi property_price down_payment_percent
      annual_interest_rate (min years_planning_to_stay 25)
  let monthly_emi := emi_result.monthly_emi
  let upfront := calculate_upfront_costs property_price down_payment_percent
  let total_upfront := upfront.total_cash_needed
  let monthly_maintenance := property_price * MAINTENANCE_FEE_PERCENT / 100 / 12
  let monthly_buy_cost := monthly_emi + monthly_maintenance
  let total_rent := (rent_loop annual_rent_increase_percent
      years_planning_to_stay.toNat (0, current_monthly_rent)).1
  let avg_monthly_rent :=
    if 0 < months then total_rent / (months : ℚ) else current_monthly_rent
  let loan_amount := emi_result.loan_amount
  let monthly_rate := annual_interest_rate / 100 / 12
  let principal_paid := (principal_loop monthly_emi monthly_rate
      (min months emi_result.tenure_months).toNat (0, loan_amount)).1
  let future_value := property_price *
      (1 + expected_appreciation_percent / 100) ^ years_planning_to_stay
  let appreciation_gain := future_value - property_price
  let down_payment := upfront.down_payment
  let equity_buildup := down_payment + principal_paid + appreciation_gain
  let total_buy_cost := total_upfront + monthly_buy_cost * (months : ℚ)
  let total_rent_cost := total_rent
  let net_buy_position := equity_buildup - total_buy_cost
  let net_rent_position := -total_rent_cost
  let savings_if_buying := equity_buildup - (total_buy_cost - total_rent_cost)
  let break_even_years :=
    if current_monthly_rent < monthly_buy_cost then
      let annual_equity_gain := principal_paid / (years_planning_to_stay : ℚ) +
          appreciation_gain / (years_planning_to_stay : ℚ)
      let annual_extra_cost := (monthly_buy_cost - current_monthly_rent) * 12
      if 0 < annual_equity_gain then
        if annual_extra_cost < annual_equity_gain then
          total_upfront / (annual_equity_gain - annual_extra_cost)
        else 99
      else 99
    else
      total_upfront / ((current_monthly_rent - monthly_buy_cost) * 12 +
          principal_paid / (years_planning_to_stay : ℚ))
  let break_even_years := max 0 (min break_even_years 99)
  let recommendation :=
    if years_planning_to_stay < 3 then "RENT"
    else if years_planning_to_stay ≤ 5 then
      if 50000 < savings_if_buying then "BUY"
      else if savings_if_buying < -50000 then "RENT"
      else "BORDERLINE"
    else "BUY"
  let reasoning :=
    if years_planning_to_stay < 3 then
      "🏠 **Recommendation: Keep Renting**\n\nAt " ++ toString years_planning_to_stay ++
      " years, the ~7% transaction fees (" ++ fmt0 (total_upfront - down_payment) ++
      " AED) will eat into any potential gains. You need at least 3-4 years to recover these costs.\n\n**Your rent over " ++
      toString years_planning_to_stay ++ " years:** " ++ fmt0 total_rent ++
      " AED\n**Buying costs (excluding equity):** " ++ fmt0 total_buy_cost ++ " AED"
    else if years_planning_to_stay ≤ 5 then
      if 50000 < savings_if_buying then
        "🏠 **Recommendation: Consider Buying**\n\nFor " ++ toString years_planning_to_stay ++
        " years, buying starts to make sense. You’ll build " ++ fmt0 equity_buildup ++
        " AED in equity while paying roughly similar monthly costs.\n\n**Net benefit vs renting:** ~" ++
        fmt0 savings_if_buying ++ " AED"
      else if savings_if_buying < -50000 then
        "🏠 **Recommendation: Keep Renting**\n\nThe numbers don’t favor buying for your " ++
        toString years_planning_to_stay ++
        "-year timeline. The upfront costs and monthly difference would cost you ~" ++
        fmt0 (-savings_if_buying) ++ " AED more than renting."
      else
        "🏠 **It’s a Close Call**\n\nFor " ++ toString years_planning_to_stay ++
        " years, buying and renting are financially similar. Consider your personal preferences:\n- Want stability and to customize your home? **Buy**\n- Want flexibility to move? **Rent**\n\n**Difference:** Only ~" ++
        fmtComma |pyRoundInt savings_if_buying| ++ " AED over " ++
        toString years_planning_to_stay ++ " years"
    else
      "🏠 **Recommendation: Buy**\n\nAt " ++ toString years_planning_to_stay ++
      "+ years, buying makes strong financial sense. You’ll build significant equity while rent keeps increasing " ++
      fmt1 annual_rent_increase_percent ++ "% per year.\n\n**Equity after " ++
      toString years_planning_to_stay ++ " years:** " ++ fmt0 equity_buildup ++
      " AED\n**If you rented instead:** " ++ fmt0 total_rent ++
      " AED gone forever\n**Break-even point:** ~" ++ fmt1 break_even_years ++ " years"
  { months := months
    emi_result := emi_result
    monthly_emi := monthly_emi
    upfront := upfront
    total_upfront := total_upfront
    monthly_maintenance := monthly_maintenance
    monthly_buy_cost := monthly_buy_cost
    total_rent := total_rent
    avg_monthly_rent := avg_monthly_rent
    loan_amount := loan_amount
    monthly_rate := monthly_rate
    principal_paid := principal_paid
    future_value := future_value
    appreciation_gain := appreciation_gain
    down_payment := down_payment
    equity_buildup := equity_buildup
    total_buy_cost := total_buy_cost
    total_rent_cost := total_rent_cost
    net_buy_position := net_buy_position
    net_rent_position := net_rent_position
    savings_if_buying := savings_if_buying
    break_even_years := break_even_years
    recommendation := recommendation
    reasoning := reasoning }

/-- The nested dictionary `monthly_breakdown` returned by `analyze_buy_vs_rent`. -/
structure MonthlyBreakdown where
  mortgage_emi : ℚ
  maintenance : ℚ
  total_monthly_buy_cost : ℚ
  current_monthly_rent : ℚ
  difference : ℚ

/-- The nested dictionary `cumulative_analysis` returned by `analyze_buy_vs_rent`. -/
structure CumulativeAnalysis where
  total_buy_cost : ℚ
  total_rent_cost : ℚ
  equity_buildup : ℚ
  savings_if_buying : ℚ
  break_even_years : ℚ

/-- The nested dictionary `assumptions` returned by `analyze_buy_vs_rent`. -/
structure BvrAssumptions where
  interest_rate : String
  appreciation : String
  rent_increase : String
  maintenance : String

/-- The dictionary returned by `analyze_buy_vs_rent`. -/
structure BuyVsRentDict where
  recommendation : String
  reasoning : String
  monthly_breakdown : MonthlyBreakdown
  cumulative_analysis : CumulativeAnalysis
  upfront_costs : UpfrontDict
  assumptions : BvrAssumptions
  years_analyzed : ℤ

/-- `analyze_buy_vs_rent` from tools.py: the return statement, assembled from
the function body `bvr_internals`. -/
def analyze_buy_vs_rent (property_price current_monthly_rent : ℚ)
    (years_planning_to_stay : ℤ)
    (down_payment_percent annual_interest_rate expected_appreciation_percent
      annual_rent_increase_percent : ℚ) : BuyVsRentDict :=
  let i := bvr_internals property_price current_monthly_rent years_planning_to_stay
      down_payment_percent annual_interest_rate expected_appreciation_percent
      annual_rent_increase_percent
  { recommendation := BvrInternals.recommendation i
    reasoning := i.reasoning
    monthly_breakdown :=
      { mortgage_emi := round2 i.monthly_emi
        maintenance := round2 i.monthly_maintenance
        total_monthly_buy_cost := round2 i.monthly_buy_cost
        current_monthly_rent := current_monthly_rent
        difference := round2 (i.monthly_buy_cost - current_monthly_rent) }
    cumulative_analysis :=
      { total_buy_cost := round2 i.total_buy_cost
        total_rent_cost := round2 i.total_rent_cost
        equity_buildup := round2 i.equity_buildup
        savings_if_buying := round2 i.savings_if_buying
        break_even_years := round1 i.break_even_years }
    upfront_costs := i.upfront
    assumptions :=
      { interest_rate := fmt1 annual_interest_rate ++ "%"
        appreciation := fmt1 expected_appreciation_percent ++ "% per year"
        rent_increase := fmt1 annual_rent_increase_percent ++ "% per year"
        maintenance := fmt1 MAINTENANCE_FEE_PERCENT ++ "% of property value per year" }
    years_analyzed := years_planning_to_stay }

/-- The recommendation policy exactly as worded by the specification
(§4.4 step 12), as a function of `yearsStaying` and `savingsIfBuying`:
`yearsStaying < 3` → RENT; `3 ≤ yearsStaying ≤ 5` → BUY if savings > 50,000,
RENT if savings < −50,000, else BORDERLINE; `yearsStaying > 5` → BUY. -/
def spec_recommendation_policy (years_staying : ℤ) (savings_if_buying : ℚ) : String :=
  if years_staying < 3 then "RENT"
  else if 3 ≤ years_staying ∧ years_staying ≤ 5 then
    if 50000 < savings_if_buying then "BUY"
    else if savings_if_buying < -50000 then "RENT"
    else "BORDERLINE"
  else "BUY"

-- ===========================================================================
-- validate_user_eligibility
-- ===========================================================================

/-- `is_expat = nationality.lower() != "uae_national"` from
`validate_user_eligibility`. -/
def elig_is_expat (nationality : String) : Bool := pyLower nationality != "uae_national"

/-- `min_income = 15000 if is_expat else 10000` from `validate_user_eligibility`. -/
def elig_min_income (nationality : String) : ℚ :=
  if elig_is_expat nationality then 15000 else 10000

/-- The income issue message appended by `validate_user_eligibility`
(`f"Most banks require minimum income of {min_income:,} AED/month"`). -/
def elig_income_issue (nationality : String) : String :=
  "Most banks require minimum income of " ++
    fmtComma (pyRoundInt (elig_min_income nationality)) ++ " AED/month"

/-- The dictionary returned by `validate_user_eligibility`. -/
structure EligibilityDict where
  is_eligible : Bool
  nationality_type : String
  max_ltv : ℚ
  min_down_payment_percent : ℚ
  issues : List String
  warnings : List String
  next_steps : List String

/-- `validate_user_eligibility` from tools.py.  The Python function builds
`issues` and `warnings` by sequential appends; the list expressions below
produce the same lists in the same order (income issue before residency
issue, documentation warning before residency warning). -/
def validate_user_eligibility (nationality : String) (monthly_income : ℚ)
    (employment_type : String) (years_in_uae : ℚ) : EligibilityDict :=
  let is_expat := elig_is_expat nationality
  let max_ltv := if is_expat then MAX_LTV_EXPAT else MAX_LTV_UAE_NATIONAL
  let min_down_payment := (1 - max_ltv) * 100
  let issues : List String :=
    (if monthly_income < elig_min_income nationality then [elig_income_issue nationality]
     else []) ++
    (if (employment_type = "self_employed" ∨ employment_type = "business_owner") ∧
        (is_expat = true ∧ years_in_uae < 2) then
      ["Self-employed expats typically need 2+ years in UAE"]
     else [])
  let warnings : List String :=
    (if employment_type = "self_employed" ∨ employment_type = "business_owner" then
      ["Self-employed applicants may face stricter documentation requirements (2+ years of audited accounts)"]
     else []) ++
    (if is_expat = true ∧ years_in_uae < 1/2 then
      ["Some banks require 6+ months UAE residency"]
     else [])
  let is_eligible := issues.length == 0
  { is_eligible := is_eligible
    nationality_type := if is_expat then "Expat" else "UAE National"
    max_ltv := max_ltv * 100
    min_down_payment_percent := min_down_payment
    issues := issues
    warnings := warnings
    next_steps :=
      if is_eligible then
        ["Gather salary certificates (3 months)",
         "Prepare bank statements (6 months)",
         "Get Emirates ID copy",
         "Obtain passport copy with residence visa"]
      else ["Address the issues listed above first"] }

-- ===========================================================================
-- tool_assess_affordability
-- ===========================================================================

/-- `tool_assess_affordability` from tools.py.  The wrapper interpolates the
keys `max_emi`, `max_property_price`, `comfortable_property_price`,
`max_loan_amount`, `dti_ratio` and `note` of the `calculate_affordability`
result into an f-string; a missing key raises `KeyError` in Python, modelled
here by returning `none`. -/
def tool_assess_affordability (monthly_income existing_monthly_debts
    desired_property_price : ℚ) : Option String := do
  let result := calculate_affordability monthly_income 0 existing_monthly_debts 50
  let comfortable_property_price ← result.comfortable_property_price
  let note ← result.note
  let output :=
    "\n💰 **Affordability Assessment**\n\n**Your Income:** " ++ fmt0 monthly_income ++
    " AED/month\n**Existing Debts:** " ++ fmt0 existing_monthly_debts ++
    " AED/month\n**Available for Mortgage:** " ++ fmt0 result.max_emi ++
    " AED/month (max)\n\n**What you can afford:**\n- Maximum Property: " ++
    fmt0 result.max_property_price ++ " AED\n- Comfortable Budget: " ++
    fmt0 comfortable_property_price ++ " AED (recommended)\n- Maximum Loan: " ++
    fmt0 result.max_loan_amount ++ " AED\n\n**Debt-to-Income Ratio:** " ++
    fmt1 result.dti_ratio ++ "%\n\n" ++ note ++ "\n"
  let output :=
    if 0 < desired_property_price then
      if desired_property_price ≤ comfortable_property_price then
        output ++ "\n✅ **" ++ fmt0 desired_property_price ++
          " AED** is comfortably within your budget!"
      else if desired_property_price ≤ result.max_property_price then
        output ++ "\n⚠️ **" ++ fmt0 desired_property_price ++
          " AED** is possible but stretches your budget. Consider a lower price."
      else
        output ++ "\n❌ **" ++ fmt0 desired_property_price ++
          " AED** exceeds your maximum by " ++
          fmt0 (desired_property_price - result.max_property_price) ++ " AED."
    else output
  pure output

-- ===========================================================================
-- Lemmas about the rounding helpers
-- ===========================================================================

theorem pyRoundInt_ge_floor (y : ℚ) : ⌊y⌋ ≤ pyRoundInt y := by
  unfold pyRoundInt
  split_ifs <;> omega

theorem pyRoundInt_le_floor_add_one (y : ℚ) : pyRoundInt y ≤ ⌊y⌋ + 1 := by
  unfold pyRoundInt
  split_ifs <;> omega

theorem abs_pyRoundInt_sub (y : ℚ) : |(pyRoundInt y : ℚ) - y| ≤ 1/2 := by
  have h1 : (⌊y⌋ : ℚ) ≤ y := Int.floor_le y
  have h2 : y < ⌊y⌋ + 1 := Int.lt_floor_add_one y
  unfold pyRoundInt
  split_ifs <;> rw [abs_le] <;> constructor <;> push_cast <;> linarith

theorem pyRoundInt_mono {y z : ℚ} (h : y ≤ z) : pyRoundInt y ≤ pyRoundInt z := by
  have hle : ⌊y⌋ ≤ ⌊z⌋ := Int.floor_le_floor h
  rcases eq_or_lt_of_le hle with heq | hlt
  · unfold pyRoundInt
    rw [heq]
    split_ifs <;> first | omega | linarith
  · have h1 := pyRoundInt_le_floor_add_one y
    have h2 := pyRoundInt_ge_floor z
    omega

theorem pyRoundInt_zero : pyRoundInt 0 = 0 := by
  norm_num [pyRoundInt]

theorem round2_mono {x y : ℚ} (h : x ≤ y) : round2 x ≤ round2 y := by
  unfold round2
  have h1 : pyRoundInt (x * 100) ≤ pyRoundInt (y * 100) :=
    pyRoundInt_mono (by linarith)
  have h2 : ((pyRoundInt (x * 100) : ℤ) : ℚ) ≤ ((pyRoundInt (y * 100) : ℤ) : ℚ) := by
    exact_mod_cast h1
  linarith

theorem round2_nonneg {x : ℚ} (h : 0 ≤ x) : 0 ≤ round2 x := by
  have h1 : pyRoundInt 0 ≤ pyRoundInt (x * 100) := pyRoundInt_mono (by linarith)
  rw [pyRoundInt_zero] at h1
  have h2 : (0 : ℚ) ≤ ((pyRoundInt (x * 100) : ℤ) : ℚ) := by exact_mod_cast h1
  unfold round2
  linarith

theorem round2_nonpos {x : ℚ} (h : x ≤ 0) : round2 x ≤ 0 := by
  have h1 : pyRoundInt (x * 100) ≤ pyRoundInt 0 := pyRoundInt_mono (by linarith)
  rw [pyRoundInt_zero] at h1
  have h2 : ((pyRoundInt (x * 100) : ℤ) : ℚ) ≤ 0 := by exact_mod_cast h1
  unfold round2
  linarith

theorem abs_round2_sub (x : ℚ) : |round2 x - x| ≤ 1/200 := by
  have h := abs_pyRoundInt_sub (x * 100)
  rw [abs_le] at h ⊢
  unfold round2
  constructor <;> [linarith [h.1]; linarith [h.2]]

theorem round2_mul_bound (e n : ℚ) (hn : 0 ≤ n) :
    |round2 (e * n) - round2 e * n| ≤ (n + 1) / 200 := by
  have h1 := abs_round2_sub (e * n)
  have h2 := abs_round2_sub e
  rw [abs_le] at h1 h2 ⊢
  have h3 : (round2 e - e) * n ≤ (1/200) * n := by nlinarith [h2.2]
  have h4 : (-(1/200)) * n ≤ (round2 e - e) * n := by nlinarith [h2.1]
  constructor <;> nlinarith [h1.1, h1.2]

theorem round2_sub_bound (a b : ℚ) :
    |round2 (a - b) - (round2 a - round2 b)| ≤ 3/200 := by
  have h1 := abs_round2_sub (a - b)
  have h2 := abs_round2_sub a
  have h3 := abs_round2_sub b
  rw [abs_le] at h1 h2 h3 ⊢
  constructor <;> linarith [h1.1, h1.2, h2.1, h2.2, h3.1, h3.2]

theorem round2_sum4_bound (a b c d : ℚ) :
    |round2 (a + (b + c + d)) - (round2 a + round2 b + round2 c + round2 d)| ≤ 1/40 := by
  have h1 := abs_round2_sub (a + (b + c + d))
  have h2 := abs_round2_sub a
  have h3 := abs_round2_sub b
  have h4 := abs_round2_sub c
  have h5 := abs_round2_sub d
  rw [abs_le] at h1 h2 h3 h4 h5 ⊢
  constructor <;>
    linarith [h1.1, h1.2, h2.1, h2.2, h3.1, h3.2, h4.1, h4.2, h5.1, h5.2]

-- ===========================================================================
-- Helper lemmas about calculate_affordability
-- ===========================================================================

theorem afford_mult_pos : 0 < afford_mult := by
  have h1 : (1:ℚ) < (1 + DEFAULT_INTEREST_RATE / 100 / 12) ^ ((25 : ℤ) * 12) :=
    one_lt_zpow₀ (by norm_num [DEFAULT_INTEREST_RATE]) (by norm_num)
  unfold afford_mult
  apply div_pos (by linarith)
  exact mul_pos (by norm_num [DEFAULT_INTEREST_RATE]) (by linarith)

theorem afford_mpp (i e d m : ℚ) :
    (calculate_affordability i e d m).max_property_price =
      if i * (m / 100) - d ≤ 0 then 0
      else round2 ((i * (m / 100) - d) * afford_mult / MAX_LTV_EXPAT) := by
  simp only [calculate_affordability, afford_mult]
  split_ifs with h <;> rfl

theorem afford_mpp_mono {me1 me2 : ℚ} (h : me1 ≤ me2) :
    (if me1 ≤ 0 then (0:ℚ) else round2 (me1 * afford_mult / MAX_LTV_EXPAT)) ≤
      (if me2 ≤ 0 then (0:ℚ) else round2 (me2 * afford_mult / MAX_LTV_EXPAT)) := by
  have hm := afford_mult_pos
  have hltv : (0:ℚ) < MAX_LTV_EXPAT := by norm_num [MAX_LTV_EXPAT]
  split_ifs with h1 h2 h2
  · exact le_refl 0
  · apply round2_nonneg
    have hpos : 0 < me2 := lt_of_not_le h2
    positivity
  · exact absurd (h.trans h2) h1
  · apply round2_mono
    gcongr

-- ===========================================================================
-- Claim theorems
-- ===========================================================================

/-- C5: for every propertyPrice > 0, annualRatePercent ≥ 0, integer
tenureYears ≥ 1 and downPaymentPercent < 20, `calculate_emi` returns exactly
the same result as the call with downPaymentPercent = 20 (clamp idempotence);
the down-payment clamp `max(down_payment_percent, 20)` and the tenure clamp
`min(tenure_years, 25)` are applied before any arithmetic, and the function
is total (it never fails) for out-of-policy inputs. -/
theorem c5_clamp_idempotence (p dpp rate : ℚ) (t : ℤ)
    (hp : 0 < p) (hd : dpp < 20) (hr : 0 ≤ rate) (ht : 1 ≤ t) :
    calculate_emi p dpp rate t = calculate_emi p 20 rate t ∧
    (calculate_emi p dpp rate t).down_payment = round2 (p * (20 / 100)) ∧
    (calculate_emi p dpp rate t).tenure_years = min t 25 := by
  have hmax : max dpp 20 = 20 := max_eq_right hd.le
  refine ⟨?_, ?_, ?_⟩
  · simp only [calculate_emi, hmax, max_self]
  · simp only [calculate_emi, hmax]
  · simp only [calculate_emi, MAX_TENURE_YEARS, hmax]

/-- C5 witness: instantiation at propertyPrice 1,000,000, down payment 10%,
rate 4.5%, tenure 25 years. -/
theorem c5_clamp_idempotence_witness :
    ((0:ℚ) < 1000000 ∧ (10:ℚ) < 20 ∧ (0:ℚ) ≤ 9/2 ∧ (1:ℤ) ≤ 25) ∧
    calculate_emi 1000000 10 (9/2) 25 = calculate_emi 1000000 20 (9/2) 25 :=
  ⟨⟨by norm_num, by norm_num, by norm_num, by norm_num⟩,
   (c5_clamp_idempotence 1000000 10 (9/2) 25 (by norm_num) (by norm_num)
     (by norm_num) (by norm_num)).1⟩

/-- C3: for all valid inputs (propertyPrice > 0, downPaymentPercent ≥ 0,
annualRatePercent ≥ 0, integer tenureYears ≥ 1), `calculate_emi` computes
`loanAmount = propertyPrice × (1 − clampedDownPaymentPercent/100)`, computes
the EMI by the standard amortization formula
`EMI = loanAmount × r × (1+r)^n / ((1+r)^n − 1)` with `n = clampedTenure × 12`
when the monthly rate `r = annualRatePercent/100/12` is positive and
`EMI = loanAmount / n` when `r = 0`, rounds the monetary outputs to 2 decimal
places, and the returned totals satisfy
`totalPayment == round(monthlyPayment × tenureMonths, 2)` and
`totalInterest == totalPayment − loanAmount` within the tolerance induced by
the 2-decimal rounding. -/
theorem c3_emi_formula (p dpp rate : ℚ) (t : ℤ) (r L : ℚ) (n : ℤ)
    (hp : 0 < p) (hdpp : 0 ≤ dpp) (hr0 : 0 ≤ rate) (ht : 1 ≤ t)
    (hr : r = rate / 100 / 12) (hn : n = min t 25 * 12)
    (hL : L = p * (1 - max dpp 20 / 100)) :
    (calculate_emi p dpp rate t).loan_amount = round2 L ∧
    (0 < rate → (calculate_emi p dpp rate t).monthly_emi =
      round2 (L * r * (1 + r) ^ n / ((1 + r) ^ n - 1))) ∧
    (rate = 0 → (calculate_emi p dpp rate t).monthly_emi = round2 (L / (n : ℚ))) ∧
    |(calculate_emi p dpp rate t).total_payment -
        (calculate_emi p dpp rate t).monthly_emi * (n : ℚ)| ≤ ((n : ℚ) + 1) / 200 ∧
    |(calculate_emi p dpp rate t).total_interest -
        ((calculate_emi p dpp rate t).total_payment -
          (calculate_emi p dpp rate t).loan_amount)| ≤ 3/200 := by
  subst hr hn hL
  have hnn : (0:ℤ) ≤ min t 25 * 12 := by omega
  refine ⟨?_, ?_, ?_, ?_, ?_⟩
  · simp only [calculate_emi, MAX_TENURE_YEARS]
    congr 1
    ring
  · intro hrate
    have hmr : 0 < rate / 100 / 12 := by positivity
    simp only [calculate_emi, MAX_TENURE_YEARS]
    rw [if_pos hmr]
    congr 1
    generalize (1 + rate / 100 / 12) ^ (min t 25 * 12) = A
    ring
  · intro hrate
    subst hrate
    simp only [calculate_emi, MAX_TENURE_YEARS]
    rw [if_neg (by norm_num)]
    congr 1
    ring
  · simp only [calculate_emi, MAX_TENURE_YEARS]
    apply round2_mul_bound
    exact_mod_cast hnn
  · simp only [calculate_emi, MAX_TENURE_YEARS]
    exact round2_sub_bound _ _

/-- C3 witness: instantiation at propertyPrice 2,000,000, down payment 20%,
rate 4.5%, tenure 25 years (r = 3/800, n = 300, loan = 1,600,000). -/
theorem c3_emi_formula_witness :
    ((0:ℚ) < 2000000 ∧ (0:ℚ) ≤ 20 ∧ (0:ℚ) ≤ 9/2 ∧ (1:ℤ) ≤ 25 ∧
      (3/800 : ℚ) = 9/2 / 100 / 12 ∧ (300:ℤ) = min 25 25 * 12 ∧
      (1600000 : ℚ) = 2000000 * (1 - max 20 20 / 100)) ∧
    ((calculate_emi 2000000 20 (9/2) 25).loan_amount = round2 1600000 ∧
      ((0:ℚ) < 9/2 → (calculate_emi 2000000 20 (9/2) 25).monthly_emi =
        round2 (1600000 * (3/800) * (1 + 3/800) ^ (300:ℤ) /
          ((1 + 3/800) ^ (300:ℤ) - 1))) ∧
      |(calculate_emi 2000000 20 (9/2) 25).total_interest -
          ((calculate_emi 2000000 20 (9/2) 25).total_payment -
            (calculate_emi 2000000 20 (9/2) 25).loan_amount)| ≤ 3/200) := by
  have h := c3_emi_formula 2000000 20 (9/2) 25 (3/800) 1600000 300
    (by norm_num) (by norm_num) (by norm_num) (by norm_num)
    (by norm_num) (by norm_num) (by norm_num)
  exact ⟨⟨by norm_num, by norm_num, by norm_num, by norm_num, by norm_num,
    by norm_num, by norm_num⟩, h.1, h.2.1, h.2.2.2.2⟩

/-- C1 counterexample: at propertyPrice = −1,000,000 (with in-policy down
payment 20%, rate 4.5%, tenure 25) `calculate_emi` raises no error at all:
it proceeds and silently returns a negative loan amount and a negative
monthly EMI, contradicting the claim that non-positive prices signal an
InvalidInput error, that calculation does not proceed, and that the engine
never silently produces negative results. -/
theorem c1_counterexample :
    (calculate_emi (-1000000) 20 (9/2) 25).monthly_emi < 0 ∧
    (calculate_emi (-1000000) 20 (9/2) 25).loan_amount < 0 := by
  constructor
  · have hA : (1:ℚ) < (1 + 9/2/100/12) ^ ((25:ℤ) * 12) :=
      one_lt_zpow₀ (by norm_num) (by norm_num)
    simp only [calculate_emi, MAX_TENURE_YEARS, max_self, min_self]
    rw [if_pos (by norm_num : (0:ℚ) < 9/2/100/12)]
    have hE : ((-1000000:ℚ) - (-1000000) * (20 / 100)) * (9/2/100/12) *
        (1 + 9/2/100/12) ^ ((25:ℤ) * 12) /
        ((1 + 9/2/100/12) ^ ((25:ℤ) * 12) - 1) ≤ -3000 := by
      rw [div_le_iff₀ (by linarith : (0:ℚ) < (1 + 9/2/100/12) ^ ((25:ℤ) * 12) - 1)]
      ring_nf
      nlinarith [hA]
    have habs := abs_round2_sub (((-1000000:ℚ) - (-1000000) * (20 / 100)) *
        (9/2/100/12) * (1 + 9/2/100/12) ^ ((25:ℤ) * 12) /
        ((1 + 9/2/100/12) ^ ((25:ℤ) * 12) - 1))
    rw [abs_le] at habs
    linarith [habs.2]
  · simp only [calculate_emi, max_self]
    have habs := abs_round2_sub ((-1000000:ℚ) - (-1000000) * (20 / 100))
    rw [abs_le] at habs
    have : ((-1000000:ℚ) - (-1000000) * (20 / 100)) = -800000 := by norm_num
    rw [this] at habs
    linarith [habs.2]

/-- C1 amended: `calculate_emi` performs no validity check on
propertyPrice or tenureYears.  For every propertyPrice ≤ 0 (with any
downPaymentPercent ≤ 100, annualRatePercent ≥ 0 and tenureYears ≥ 1) it
signals no error: it clamps the policy inputs, proceeds with the
calculation, and returns `loan_amount = round2(price × (1 − clamped/100))`,
which is ≤ 0, together with a monthly EMI ≤ 0 (both strictly negative for
prices ≤ −1, as the counterexample shows at −1,000,000). -/
theorem c1_amended (p dpp rate : ℚ) (t : ℤ)
    (hp : p ≤ 0) (hdpp : dpp ≤ 100) (hr : 0 ≤ rate) (ht : 1 ≤ t) :
    (calculate_emi p dpp rate t).loan_amount = round2 (p * (1 - max dpp 20 / 100)) ∧
    (calculate_emi p dpp rate t).loan_amount ≤ 0 ∧
    (calculate_emi p dpp rate t).monthly_emi ≤ 0 := by
  have hc1 : (20:ℚ) ≤ max dpp 20 := le_max_right _ _
  have hc2 : max dpp 20 ≤ 100 := max_le hdpp (by norm_num)
  have hLu : p - p * (max dpp 20 / 100) ≤ 0 := by
    nlinarith [mul_nonneg (neg_nonneg.mpr hp) (by linarith : (0:ℚ) ≤ 100 - max dpp 20)]
  refine ⟨?_, ?_, ?_⟩
  · simp only [calculate_emi]
    congr 1
    ring
  · simp only [calculate_emi]
    exact round2_nonpos hLu
  · simp only [calculate_emi, MAX_TENURE_YEARS]
    by_cases hmr : 0 < rate / 100 / 12
    · rw [if_pos hmr]
      apply round2_nonpos
      have hn' : (0:ℤ) < min t 25 * 12 := by omega
      have hA : (1:ℚ) < (1 + rate / 100 / 12) ^ (min t 25 * 12) :=
        one_lt_zpow₀ (by linarith) hn'
      have h1 : (p - p * (max dpp 20 / 100)) * (rate / 100 / 12) ≤ 0 :=
        mul_nonpos_iff.mpr (Or.inr ⟨hLu, hmr.le⟩)
      have h2 : (p - p * (max dpp 20 / 100)) * (rate / 100 / 12) *
          (1 + rate / 100 / 12) ^ (min t 25 * 12) ≤ 0 :=
        mul_nonpos_iff.mpr (Or.inr ⟨h1, by linarith⟩)
      exact div_nonpos_iff.mpr (Or.inr ⟨h2, by linarith⟩)
    · rw [if_neg hmr]
      apply round2_nonpos
      have hn' : (0:ℤ) ≤ min t 25 * 12 := by omega
      have hn'' : (0:ℚ) ≤ ((min t 25 * 12 : ℤ) : ℚ) := by exact_mod_cast hn'
      exact div_nonpos_iff.mpr (Or.inr ⟨hLu, hn''⟩)

/-- C1 amended witness: instantiation at propertyPrice −1,000,000, down
payment 20%, rate 4.5%, tenure 25 years. -/
theorem c1_amended_witness :
    ((-1000000:ℚ) ≤ 0 ∧ (20:ℚ) ≤ 100 ∧ (0:ℚ) ≤ 9/2 ∧ (1:ℤ) ≤ 25) ∧
    ((calculate_emi (-1000000) 20 (9/2) 25).loan_amount ≤ 0 ∧
      (calculate_emi (-1000000) 20 (9/2) 25).monthly_emi ≤ 0) := by
  have h := c1_amended (-1000000) 20 (9/2) 25 (by norm_num) (by norm_num)
    (by norm_num) (by norm_num)
  exact ⟨⟨by norm_num, by norm_num, by norm_num, by norm_num⟩, h.2.1, h.2.2⟩

/-- C4: for every propertyPrice and every downPaymentPercent ≥ 20,
`calculate_upfront_costs` returns transferFee = 4% of the price,
agencyFee = 2%, miscFees = 1%, and
`totalCashNeeded = downPayment + 0.07 × propertyPrice` (equivalently the sum
of the four components, up to 2-decimal rounding of the components); in
particular at (2,000,000, 20) it yields downPayment = 400,000,
transferFee = 80,000, agencyFee = 40,000, miscFees = 20,000 and
totalCashNeeded = 540,000. -/
theorem c4_upfront_costs (p dpp : ℚ) (h : 20 ≤ dpp) :
    (calculate_upfront_costs p dpp).transfer_fee = round2 (p * (4 / 100)) ∧
    (calculate_upfront_costs p dpp).agency_fee = round2 (p * (2 / 100)) ∧
    (calculate_upfront_costs p dpp).misc_fees = round2 (p * (1 / 100)) ∧
    (calculate_upfront_costs p dpp).total_cash_needed =
      round2 (p * (dpp / 100) + 7 / 100 * p) ∧
    |(calculate_upfront_costs p dpp).total_cash_needed -
        ((calculate_upfront_costs p dpp).down_payment +
          (calculate_upfront_costs p dpp).transfer_fee +
          (calculate_upfront_costs p dpp).agency_fee +
          (calculate_upfront_costs p dpp).misc_fees)| ≤ 1/40 ∧
    (calculate_upfront_costs 2000000 20).down_payment = 400000 ∧
    (calculate_upfront_costs 2000000 20).transfer_fee = 80000 ∧
    (calculate_upfront_costs 2000000 20).agency_fee = 40000 ∧
    (calculate_upfront_costs 2000000 20).misc_fees = 20000 ∧
    (calculate_upfront_costs 2000000 20).total_cash_needed = 540000 := by
  have hmax : max dpp 20 = dpp := max_eq_left h
  refine ⟨?_, ?_, ?_, ?_, ?_, ?_, ?_, ?_, ?_, ?_⟩
  · simp only [calculate_upfront_costs, TRANSFER_FEE_PERCENT, hmax]
  · simp only [calculate_upfront_costs, AGENCY_FEE_PERCENT, hmax]
  · simp only [calculate_upfront_costs, MISC_FEES_PERCENT, hmax]
  · simp only [calculate_upfront_costs, TRANSFER_FEE_PERCENT, AGENCY_FEE_PERCENT,
      MISC_FEES_PERCENT, hmax]
    congr 1
    ring
  · simp only [calculate_upfront_costs, TRANSFER_FEE_PERCENT, AGENCY_FEE_PERCENT,
      MISC_FEES_PERCENT, hmax]
    exact round2_sum4_bound _ _ _ _
  · norm_num [calculate_upfront_costs, round2, pyRoundInt]
  · norm_num [calculate_upfront_costs, TRANSFER_FEE_PERCENT, round2, pyRoundInt]
  · norm_num [calculate_upfront_costs, AGENCY_FEE_PERCENT, round2, pyRoundInt]
  · norm_num [calculate_upfront_costs, MISC_FEES_PERCENT, round2, pyRoundInt]
  · norm_num [calculate_upfront_costs, TRANSFER_FEE_PERCENT, AGENCY_FEE_PERCENT,
      MISC_FEES_PERCENT, round2, pyRoundInt]

/-- C4 witness: instantiation at propertyPrice 2,000,000 and
downPaymentPercent 20. -/
theorem c4_upfront_costs_witness :
    (20:ℚ) ≤ 20 ∧
    (calculate_upfront_costs 2000000 20).down_payment = 400000 ∧
    (calculate_upfront_costs 2000000 20).total_cash_needed = 540000 := by
  have h := c4_upfront_costs 2000000 20 (by norm_num)
  exact ⟨by norm_num, h.2.2.2.2.2.1, h.2.2.2.2.2.2.2.2.2⟩

/-- C2 (code bug evidence): at monthly_income = 10,000 and existing monthly
debts = 6,000 (so max_emi = 10,000 × 50% − 6,000 = −1,000 ≤ 0), the
unaffordable branch of `calculate_affordability` returns a dictionary that
omits the `comfortable_property_price` and `note` keys, so the f-string in
`tool_assess_affordability` aborts on a missing key (Python `KeyError`,
modelled as `none`) instead of returning the formatted string that the claim
promises. -/
theorem c2_tool_keyerror : tool_assess_affordability 10000 6000 0 = none := by
  norm_num [tool_assess_affordability, calculate_affordability]

/-- C6: for every input (in particular every positive integer yearsStaying),
the recommendation returned by `analyze_buy_vs_rent` is the deterministic
function of yearsStaying and the (unrounded) savingsIfBuying value computed
by the function body, given by the spec's threshold policy: < 3 years → RENT;
3–5 years → BUY if savings > 50,000, RENT if savings < −50,000, else
BORDERLINE; > 5 years → BUY. -/
theorem c6_recommendation_policy (p rent : ℚ) (y : ℤ) (dpp rate app inc : ℚ) :
    BuyVsRentDict.recommendation (analyze_buy_vs_rent p rent y dpp rate app inc) =
      spec_recommendation_policy y
        ( BvrInternals.savings_if_buying (bvr_internals p rent y dpp rate app inc)) := by
  simp only [analyze_buy_vs_rent, bvr_internals, spec_recommendation_policy]
  split_ifs <;> first | rfl | omega

/-- C7: `calculate_affordability` is monotonic in its inputs: with
monthly_expenses, existing_debts and a nonnegative max_dti_ratio fixed,
increasing monthly_income never decreases the returned max_property_price;
and with monthly_income fixed, increasing existing_debts never increases it
(including across the boundary into the `is_affordable = false` case, where
max_property_price is 0). -/
theorem c7_affordability_monotone :
    (∀ i1 i2 e d m : ℚ, 0 ≤ m → i1 ≤ i2 →
      (calculate_affordability i1 e d m).max_property_price ≤
        (calculate_affordability i2 e d m).max_property_price) ∧
    (∀ i e m d1 d2 : ℚ, d1 ≤ d2 →
      (calculate_affordability i e d2 m).max_property_price ≤
        (calculate_affordability i e d1 m).max_property_price) := by
  constructor
  · intro i1 i2 e d m hm h
    rw [afford_mpp, afford_mpp]
    apply afford_mpp_mono
    have h1 : i1 * (m / 100) ≤ i2 * (m / 100) :=
      mul_le_mul_of_nonneg_right h (by positivity)
    linarith
  · intro i e m d1 d2 h
    rw [afford_mpp, afford_mpp]
    apply afford_mpp_mono
    linarith

/-- C7 witness: instantiation at incomes 30,000 ≤ 40,000 and at debts
3,000 ≤ 6,000, all at the default 50% DTI cap. -/
theorem c7_affordability_monotone_witness :
    ((0:ℚ) ≤ 50 ∧ (30000:ℚ) ≤ 40000 ∧
      (calculate_affordability 30000 0 0 50).max_property_price ≤
        (calculate_affordability 40000 0 0 50).max_property_price) ∧
    ((3000:ℚ) ≤ 6000 ∧
      (calculate_affordability 30000 0 6000 50).max_property_price ≤
        (calculate_affordability 30000 0 3000 50).max_property_price) :=
  ⟨⟨by norm_num, by norm_num,
     c7_affordability_monotone.1 30000 40000 0 0 50 (by norm_num) (by norm_num)⟩,
   ⟨by norm_num,
     c7_affordability_monotone.2 30000 0 50 3000 6000 (by norm_num)⟩⟩

/-- C9: whenever `calculate_affordability` returns `is_affordable = true`
(with nonnegative existing_debts, as the contract requires), the returned
dti_ratio equals `round(max_dti_ratio, 1)` independently of monthly_income
and existing_debts: the computed `max_emi + existing_debts` equals
`monthly_income × max_dti_ratio/100` by construction, so the reported
"actual DTI" always reproduces the cap (50.0 under the default cap, as the
witness shows). -/
theorem c9_dti_reproduces_cap (i e d m : ℚ) (hd : 0 ≤ d)
    (ha : (calculate_affordability i e d m).is_affordable = true) :
    (calculate_affordability i e d m).dti_ratio = round1 m := by
  by_cases h : i * (m / 100) - d ≤ 0
  · exfalso
    simp only [calculate_affordability, if_pos h] at ha
    exact Bool.false_ne_true ha
  · have hme : 0 < i * (m / 100) - d := not_le.mp h
    have hi : i ≠ 0 := by
      intro h0
      rw [h0] at hme
      simp at hme
      linarith
    simp only [calculate_affordability, if_neg h]
    congr 1
    field_simp
    ring

/-- C9 witness: at income 30,000, debts 5,000, default 50% cap, the result is
affordable and the reported DTI is exactly the 50.0 cap. -/
theorem c9_dti_reproduces_cap_witness :
    (0:ℚ) ≤ 5000 ∧
    (calculate_affordability 30000 0 5000 50).is_affordable = true ∧
    (calculate_affordability 30000 0 5000 50).dti_ratio = 50 := by
  have haff : (calculate_affordability 30000 0 5000 50).is_affordable = true := by
    norm_num [calculate_affordability]
  refine ⟨by norm_num, haff, ?_⟩
  have h := c9_dti_reproduces_cap 30000 0 5000 50 (by norm_num) haff
  rw [h]
  norm_num [round1, pyRoundInt]

/-- C8: for every applicant profile, `validate_user_eligibility` returns
`is_eligible = true` exactly when the issues list is empty; the issues list
consists precisely of the income issue (income below 15,000 for an expat,
below 10,000 for a national) and the residency issue (self-employed or
business-owner expat with fewer than 2 years in the UAE); the warnings
(self-employed documentation; expat with under half a year of residency)
never affect is_eligible, which is determined by the two issue conditions
alone; and in particular `validate_user_eligibility("expat", 10000,
"salaried", 1)` yields `is_eligible = false`. -/
theorem c8_eligibility_rules (n : String) (inc : ℚ) (emp : String) (y : ℚ) :
    ((validate_user_eligibility n inc emp y).is_eligible = true ↔
        (validate_user_eligibility n inc emp y).issues = []) ∧
    ((validate_user_eligibility n inc emp y).issues =
        (if inc < elig_min_income n then [elig_income_issue n] else []) ++
        (if (emp = "self_employed" ∨ emp = "business_owner") ∧
            (elig_is_expat n = true ∧ y < 2) then
          ["Self-employed expats typically need 2+ years in UAE"] else [])) ∧
    ((validate_user_eligibility n inc emp y).is_eligible = true ↔
        ¬(inc < elig_min_income n) ∧
        ¬((emp = "self_employed" ∨ emp = "business_owner") ∧
            (elig_is_expat n = true ∧ y < 2))) ∧
    ((validate_user_eligibility n inc emp y).warnings =
        (if emp = "self_employed" ∨ emp = "business_owner" then
          ["Self-employed applicants may face stricter documentation requirements (2+ years of audited accounts)"]
         else []) ++
        (if elig_is_expat n = true ∧ y < 1/2 then
          ["Some banks require 6+ months UAE residency"] else [])) ∧
    (validate_user_eligibility "expat" 10000 "salaried" 1).is_eligible = false := by
  refine ⟨?_, ?_, ?_, ?_, ?_⟩
  · simp only [validate_user_eligibility, beq_iff_eq, List.length_eq_zero]
  · simp only [validate_user_eligibility]
  · simp only [validate_user_eligibility, beq_iff_eq, List.length_eq_zero]
    split_ifs with h1 h2 h2 <;> simp [h1, h2]
  · simp only [validate_user_eligibility]
  · decide

/-- C10: `validate_user_eligibility` classifies every nationality string
whose lowercase form is not exactly "uae_national" as an expat: any such
value — arbitrary or misspelled strings included — produces exactly the same
report as nationality "expat" (so it receives the stricter expat policy:
max LTV 80%, 20% minimum down payment, the 15,000 AED income floor and the
expat residency checks) rather than being rejected as an invalid
nationality. -/
theorem c10_nationality_fallback_expat (s : String) (inc : ℚ) (emp : String)
    (y : ℚ) (h : pyLower s ≠ "uae_national") :
    validate_user_eligibility s inc emp y = validate_user_eligibility "expat" inc emp y ∧
    (validate_user_eligibility s inc emp y).max_ltv = 80 ∧
    (validate_user_eligibility s inc emp y).min_down_payment_percent = 20 ∧
    elig_min_income s = 15000 := by
  have hs : elig_is_expat s = true := by
    unfold elig_is_expat
    rw [bne_iff_ne]
    exact h
  have he : elig_is_expat "expat" = true := by decide
  refine ⟨?_, ?_, ?_, ?_⟩
  · simp only [validate_user_eligibility, elig_min_income, elig_income_issue, hs, he]
  · simp only [validate_user_eligibility, hs, if_true]
    norm_num [MAX_LTV_EXPAT]
  · simp only [validate_user_eligibility, hs, if_true]
    norm_num [MAX_LTV_EXPAT]
  · simp only [elig_min_income, hs, if_true]

/-- C10 witness: the arbitrary nationality string "British" is treated
exactly like "expat". -/
theorem c10_nationality_fallback_expat_witness :
    pyLower "British" ≠ "uae_national" ∧
    validate_user_eligibility "British" 20000 "salaried" 3 =
      validate_user_eligibility "expat" 20000 "salaried" 3 ∧
    (validate_user_eligibility "British" 20000 "salaried" 3).max_ltv = 80 :=
  ⟨by decide,
   (c10_nationality_fallback_expat "British" 20000 "salaried" 3 (by decide)).1,
   (c10_nationality_fallback_expat "British" 20000 "salaried" 3 (by decide)).2.1⟩
